import Mathlib

/-!
Verification development for the Playwright test-script orchestration runner
(`runner.py`).  The runner discovers `*.py` scripts in a scripts directory,
textually patches them for headless execution (`ensure_headless_mode`), runs
each as a subprocess (`run_single_script`), harvests screenshot artifacts from
a shared `screenshots` directory (`collect_screenshots`), persists a summary
(`save_results`) and exits via `print_summary`.

The embedding below models Python strings as Lean `String` (a list of code
points, exactly the Python `str` data model), the screenshots directory as a
list of file entries, and the subprocess outcome as an explicit input
(`ProcOutcome`), since the child process itself is an external collaborator.
-/

namespace Runner

/-- Python `str.replace(pat, rep)` on code-point lists: scan left to right,
replace each non-overlapping occurrence of `pat`, and continue scanning after
the inserted replacement (the replacement text is not rescanned).  For the
empty pattern this model is the identity; the runner only ever calls it with
non-empty literal patterns. -/
def pyReplaceAux (pat rep : List Char) : Nat → List Char → List Char
  | _, [] => []
  | 0, l => l
  | fuel + 1, c :: rest =>
    if pat.isPrefixOf (c :: rest) && !pat.isEmpty then
      rep ++ pyReplaceAux pat rep fuel (rest.drop (pat.length - 1))
    else
      c :: pyReplaceAux pat rep fuel rest

/-- Python `str.replace` on code-point lists, with the scan bounded by the
fuel `l.length` (each step consumes at least one input character, so the fuel
never runs out). -/
def pyReplaceL (pat rep l : List Char) : List Char :=
  pyReplaceAux pat rep l.length l

/-- Python substring test `pat in s` on code-point lists. -/
def containsSubL (pat : List Char) : List Char → Bool
  | [] => pat.isEmpty
  | c :: rest => pat.isPrefixOf (c :: rest) || containsSubL pat rest

/-- Python `s.replace(pat, rep)` on `String`. -/
def pyReplace (s pat rep : String) : String :=
  String.mk (pyReplaceL pat.data rep.data s.data)

/-- Python `pat in s` on `String`. -/
def pyContains (s pat : String) : Bool :=
  containsSubL pat.data s.data

/-- The screenshot-capture snippet that `ensure_headless_mode` splices into a
script right after `page = await browser.new_page()`.  This is the value of the
Python f-string `screenshot_code` in `runner.py` (lines 46-62), with
`{script_path.stem}` interpolated to `stem` and the doubled braces of the
f-string collapsed to single literal braces. -/
def screenshotCode (stem : String) : String :=
  "\n        # Auto-screenshot capture\n        screenshot_dir = Path(\"screenshots\")\n        screenshot_dir.mkdir(exist_ok=True)\n        script_name = \"" ++ stem ++
  "\"\n        \n        async def capture_screenshot(step_name):\n            try:\n                timestamp = datetime.now().strftime(\"%H%M%S\")\n                screenshot_path = screenshot_dir / f\"\x7bscript_name\x7d_\x7bstep_name\x7d_\x7btimestamp\x7d.png\"\n                await page.screenshot(path=str(screenshot_path), full_page=True)\n                print(f\"📸 Screenshot saved: \x7bscreenshot_path\x7d\")\n                return str(screenshot_path)\n            except Exception as e:\n                print(f\"⚠️ Screenshot failed: \x7be\x7d\")\n                return None\n"

/-- Content transformation performed by `TestRunner.ensure_headless_mode`
(`runner.py` lines 29-90) on a script file with stem `stem` and current content
`content`: four literal headless substitutions, then - when the patched content
mentions `async def`, `playwright` and the literal page-creation line - the
screenshot-capture snippet is spliced in after every occurrence of that line,
capture calls are inserted before `await page.goto(` and
`await browser.close()`, and the datetime/pathlib imports are prepended when
missing.  The function writes the file back exactly when the result differs
from the input; on an I/O failure the file is left unchanged.  This model
returns the content the file holds afterwards. -/
def ensure_headless_mode (stem content : String) : String :=
  let c1 := pyReplace content "headless=False" "headless=True"
  let c2 := pyReplace c1 "headless = False" "headless = True"
  let c3 := pyReplace c2 "\"headless\": false" "\"headless\": true"
  let c4 := pyReplace c3 "\x27headless\x27: False" "\x27headless\x27: True"
  if pyContains c4 "async def" && pyContains c4 "playwright" then
    if pyContains c4 "page = await browser.new_page()" then
      let c5 := pyReplace c4 "page = await browser.new_page()"
        ("page = await browser.new_page()" ++ screenshotCode stem)
      let c6 := pyReplace c5 "await page.goto("
        "await capture_screenshot(\"page_load\")\n        await page.goto("
      let c7 := pyReplace c6 "await browser.close()"
        "await capture_screenshot(\"final_state\")\n        await browser.close()"
      if !(pyContains c7 "from datetime import datetime") then
        "from datetime import datetime\nfrom pathlib import Path\n" ++ c7
      else c7
    else c4
  else c4

/-- A triggering script for the screenshot-injection branch, shaped like the
scripts shipped in the scripts directory (for example `screenshot_test.py`):
it mentions `playwright`, defines an `async def` test, and creates a page with
the literal line the patcher looks for. -/
def trigScript : String :=
  "from playwright.async_api import async_playwright\n\nasync def test_demo():\n    async with async_playwright() as p:\n        browser = await p.chromium.launch(headless=True)\n        page = await browser.new_page()\n        await browser.close()\n"

/-- Boolean test that `suffix` is a suffix of `s` (code-point wise). -/
def strEnds (s suffix : String) : Bool :=
  suffix.data.isSuffixOf s.data

/-- Boolean test that `start` is a prefix of `s` (code-point wise). -/
def strStarts (s start : String) : Bool :=
  start.data.isPrefixOf s.data

/-- Script discovery, `runner.py` line 302: `self.scripts_dir.glob("*.py")`.
The glob pattern `*.py` matches exactly the directory entries whose name ends
in `.py` (pathlib applies no hidden-file filtering and no further exclusion),
in directory-enumeration order. -/
def discoverScripts (dirListing : List String) : List String :=
  dirListing.filter (fun f => strEnds f ".py")

/-- `pathlib.Path.stem` for a file name that ends in an extension of `n`
code points: the name with its last `n` code points removed (for example
`stemDrop 3` maps `demo_test.py` to `demo_test`, `stemDrop 4` maps
`demo_a_1.png` to `demo_a_1`). -/
def stemDrop (n : Nat) (f : String) : String :=
  String.mk (f.data.take (f.data.length - n))

/-- One entry of the shared `screenshots` directory: its file name, its
modification time (`st_mtime`, modelled as an abstract tick count), its raw
byte contents, whether opening and reading it succeeds, and whether it was
already present before the current run started. -/
structure FileEntry where
  name : String
  mtime : Nat
  bytes : List Nat
  readable : Bool
  existedBefore : Bool
deriving DecidableEq, Repr

/-- Character `n` of the standard base64 alphabet. -/
def b64Digit (n : Nat) : Char :=
  "ABCDEFGHIJKLMNOPQRSTUVWXYZabcdefghijklmnopqrstuvwxyz0123456789+/".data.getD n '='

/-- RFC 4648 base64 encoding of a byte sequence
(`base64.b64encode(...).decode("utf-8")` in `collect_screenshots`). -/
def base64Encode : List Nat → List Char
  | [] => []
  | [a] => [b64Digit (a / 4), b64Digit (a % 4 * 16), '=', '=']
  | [a, b] => [b64Digit (a / 4), b64Digit (a % 4 * 16 + b / 16), b64Digit (b % 16 * 4), '=']
  | a :: b :: c :: rest =>
    b64Digit (a / 4) :: b64Digit (a % 4 * 16 + b / 16) ::
      b64Digit (b % 16 * 4 + c / 64) :: b64Digit (c % 64) :: base64Encode rest

/-- The glob `f"{script_name}_*.png"` used by `collect_screenshots`
(`runner.py` line 130): a file name matches exactly when it is
`script_name ++ "_" ++ middle ++ ".png"` for some (possibly empty) `middle`,
that is, when it starts with `script_name ++ "_"`, ends with `".png"`, and is
long enough for the prefix and the suffix not to overlap. -/
def matchesShotGlob (script_name fname : String) : Bool :=
  strStarts fname (script_name ++ "_") && strEnds fname ".png" &&
    decide (script_name.data.length + 5 ≤ fname.data.length)

/-- Python `s.split(sep)` for a one-character separator: splits into the
(possibly empty) runs between separator occurrences; always non-empty. -/
def splitOnChar (sep : Char) : List Char → List (List Char)
  | [] => [[]]
  | c :: rest =>
    match splitOnChar sep rest with
    | [] => if c = sep then [[], []] else [[c]]
    | g :: gs => if c = sep then [] :: g :: gs else (c :: g) :: gs

/-- One harvested screenshot record, as built by `collect_screenshots`
(`runner.py` lines 140-145): step label parsed from the file name, the file
name, the base64-encoded payload, and the modification time.  The record
carries no sequence-number field and no owning-script field. -/
structure ShotRecord where
  step_name : String
  filename : String
  data : String
  timestamp : Nat
deriving DecidableEq, Repr

/-- The record `collect_screenshots` builds for one readable matching file:
the step name is `"_".join(stem.split("_")[1:-1])` when the stem has more than
two underscore-separated parts and `"unknown"` otherwise; the payload is the
base64 encoding of the file bytes; the timestamp is the modification time. -/
def shotRecordOf (f : FileEntry) : ShotRecord :=
  let parts := splitOnChar '_' (stemDrop 4 f.name).data
  let step :=
    if parts.length > 2 then String.mk (List.intercalate ['_'] ((parts.drop 1).dropLast))
    else "unknown"
  { step_name := step, filename := f.name, data := String.mk (base64Encode f.bytes),
    timestamp := f.mtime }

/-- `TestRunner.collect_screenshots` (`runner.py` lines 126-155) for script
identity `script_name` against the current contents `fs` of the shared
`screenshots` directory (listed in directory-enumeration order): keep the
files matching the `{script_name}_*.png` glob, skip the unreadable ones with a
warning, build a record for each of the rest, and stably sort the records by
modification time (Python `list.sort` is stable, so ties keep enumeration
order). -/
def collect_screenshots (fs : List FileEntry) (script_name : String) : List ShotRecord :=
  let matched := fs.filter (fun f => matchesShotGlob script_name f.name)
  let recs := (matched.filter (fun f => f.readable)).map shotRecordOf
  List.insertionSort (fun a b => a.timestamp ≤ b.timestamp) recs

/-- `self.screenshots_dir.mkdir(exist_ok=True)` in `TestRunner.__init__`
(`runner.py` lines 26-27): when the directory does not exist it is created
empty, and when it already exists its contents are left untouched - the
runner never clears it. -/
def initScreenshotsDir : Option (List FileEntry) → List FileEntry
  | none => []
  | some existing => existing

/-- What the child process did, from the point of view of the controller:
either it was spawned and ran to completion with an exit code and captured
output streams, or spawning/communicating failed with a Python exception
whose text is `msg` (`str(e)`). -/
inductive ProcOutcome where
  | completed (returncode : Int) (stdout stderr : String)
  | exception (msg : String)
deriving DecidableEq, Repr

/-- One per-script execution record, the dict built by
`TestRunner.run_single_script` (`runner.py` lines 222-233 and 261-273).
Timestamps are abstract ticks; `error` is the extra `"error"` key that only
the exception path adds. -/
structure RunResult where
  script : String
  status : String
  success : Bool
  duration : Nat
  return_code : Int
  stdout : String
  stderr : String
  screenshots : List ShotRecord
  start_time : Nat
  end_time : Nat
  error : Option String
deriving DecidableEq, Repr

/-- `TestRunner.run_single_script` (`runner.py` lines 157-281) for the script
with stem `script_name`, given the subprocess outcome and the contents `fs`
of the screenshots directory at harvest time.  On completion: screenshots are
harvested, `success = (returncode == 0)`, status is PASSED or FAILED.  On an
exception anywhere in the spawn/communicate block: a distinct ERROR record
with `return_code = -1`, empty stdout, the exception text as stderr, an empty
screenshots list, and the cause under the `error` key.  Exactly one record is
appended in either case. -/
def run_single_script (fs : List FileEntry) (script_name : String)
    (outcome : ProcOutcome) (startT endT : Nat) : RunResult :=
  match outcome with
  | .completed rc out err =>
    let shots := collect_screenshots fs script_name
    let success := rc == 0
    { script := script_name
      status := if success then "✅ PASSED" else "❌ FAILED"
      success := success
      duration := endT - startT
      return_code := rc
      stdout := out
      stderr := err
      screenshots := shots
      start_time := startT
      end_time := endT
      error := none }
  | .exception msg =>
    { script := script_name
      status := "❌ ERROR"
      success := false
      duration := endT - startT
      return_code := -1
      stdout := ""
      stderr := msg
      screenshots := []
      start_time := startT
      end_time := endT
      error := some msg }

/-- The record list accumulated by `run_all_scripts` (`runner.py` lines
312-319): one `run_single_script` record per discovered script file.
`asyncio.gather` appends records in completion order, a permutation of this
list; every property proved below is invariant under that reordering, so the
model schedules completions in discovery order. -/
def runResultsOf (fs : List FileEntry) (scriptFiles : List String)
    (outcomeOf : String → ProcOutcome) (startOf endOf : String → Nat) : List RunResult :=
  scriptFiles.map (fun f =>
    let nm := stemDrop 3 f
    run_single_script fs nm (outcomeOf nm) (startOf nm) (endOf nm))

/-- A serialized per-script record as written to `test_results.json`: the same
fields with the two timestamps rendered by `datetime.isoformat()`. -/
structure SerializedResult where
  script : String
  status : String
  success : Bool
  duration : Nat
  return_code : Int
  stdout : String
  stderr : String
  screenshots : List ShotRecord
  start_time : String
  end_time : String
  error : Option String
deriving DecidableEq, Repr

/-- Rendering of an abstract timestamp by `datetime.isoformat()` (injective on
ticks; its exact format is irrelevant to the claims). -/
def isoformat (t : Nat) : String :=
  toString t

/-- The serialization step of `save_results` (`runner.py` lines 333-338). -/
def serializeResult (r : RunResult) : SerializedResult :=
  { script := r.script, status := r.status, success := r.success, duration := r.duration
    return_code := r.return_code, stdout := r.stdout, stderr := r.stderr
    screenshots := r.screenshots
    start_time := isoformat r.start_time, end_time := isoformat r.end_time
    error := r.error }

/-- The JSON document `save_results` writes to `test_results.json`. -/
structure ResultsDoc where
  execution_time : String
  total_scripts : Nat
  passed : Nat
  failed : Nat
  results : List SerializedResult
deriving DecidableEq, Repr

/-- `TestRunner.save_results` (`runner.py` lines 327-351).  The file is opened
with mode `"w"`, which truncates whatever document may already exist at the
path before the new document is written; the prior document (`prior`, `none`
when the file did not exist) is never read and does not influence the output.
The written document holds only the current run: its length as
`total_scripts`, the success/failure counts, and the serialized records. -/
def save_results (prior : Option ResultsDoc) (runStart : Nat)
    (results : List RunResult) : ResultsDoc :=
  { execution_time := isoformat runStart
    total_scripts := results.length
    passed := results.countP (fun r => r.success)
    failed := results.countP (fun r => !r.success)
    results := results.map serializeResult }

/-- The passed count printed by `print_summary` (`runner.py` line 358). -/
def summary_passed (results : List RunResult) : Nat :=
  results.countP (fun r => r.success)

/-- The failed count printed by `print_summary` (`runner.py` line 359):
`len(self.results) - passed`. -/
def summary_failed (results : List RunResult) : Nat :=
  results.length - summary_passed results

/-- The `sys.exit` code chosen by `print_summary` (`runner.py` lines 384-390):
1 when any record is not a success, 0 otherwise. -/
def print_summary_exit (results : List RunResult) : Nat :=
  if summary_failed results > 0 then 1 else 0

/-- The process exit code of one whole controller invocation (`main` plus
`run_all_scripts`, `runner.py` lines 283-325 and 393-418).  When the browser
check fails, when the scripts directory does not exist, or when no `*.py`
script is discovered, `run_all_scripts` returns early without calling
`sys.exit`, `asyncio.run` and `main` then fall through, and the Python
process exits 0.  Otherwise every script runs, results are saved, and
`print_summary` exits 1 when any record failed and 0 when all succeeded. -/
def controller_exit_code (browsersReady dirExists : Bool) (dirListing : List String)
    (fs : List FileEntry) (outcomeOf : String → ProcOutcome)
    (startOf endOf : String → Nat) : Nat :=
  if !browsersReady then 0
  else if !dirExists then 0
  else if (discoverScripts dirListing).isEmpty then 0
  else print_summary_exit (runResultsOf fs (discoverScripts dirListing) outcomeOf startOf endOf)

/-- Total order instance for the harvest sort key. -/
instance shotTimeLeTotal : IsTotal ShotRecord (fun a b => a.timestamp ≤ b.timestamp) :=
  ⟨fun a b => Nat.le_total a.timestamp b.timestamp⟩

/-- Transitivity instance for the harvest sort key. -/
instance shotTimeLeTrans : IsTrans ShotRecord (fun a b => a.timestamp ≤ b.timestamp) :=
  ⟨fun _ _ _ => Nat.le_trans⟩

/-- A screenshot written by a script with identity `alpha` during a first run. -/
def alphaShot : FileEntry :=
  { name := "alpha_step1_100000.png", mtime := 1, bytes := [1], readable := true,
    existedBefore := false }

/-- A screenshot written by a script with identity `beta` during a second run. -/
def betaShot : FileEntry :=
  { name := "beta_step1_200000.png", mtime := 2, bytes := [2], readable := true,
    existedBefore := false }

/-- The result document after a first controller run that executed `alpha`
(one success, one artifact) against a fresh `test_results.json` path. -/
def docAfterFirstRun : ResultsDoc :=
  save_results none 0 [run_single_script [alphaShot] "alpha" (.completed 0 "" "") 0 1]

/-- The result document after a second controller run against the same path
(document now existing, no fresh file requested) that executed `beta`; the
screenshots directory still holds the first run's artifact. -/
def docAfterSecondRun : ResultsDoc :=
  save_results (some docAfterFirstRun) 2
    [run_single_script [alphaShot, betaShot] "beta" (.completed 0 "" "") 2 3]

/-- All artifact file names stored in a result document, in order. -/
def docShotFilenames (d : ResultsDoc) : List String :=
  (d.results.map (fun r => r.screenshots.map (fun s => s.filename))).flatten

/-- An artifact file whose name carries the nested script identity `a_b`. -/
def nestedShotFile : FileEntry :=
  { name := "a_b_final_1.png", mtime := 5, bytes := [0], readable := true,
    existedBefore := false }

/-- Two same-mtime screenshots of script `x`, listed by the directory scan in
non-lexical order. -/
def tieShotHigh : FileEntry :=
  { name := "x_s2_1.png", mtime := 5, bytes := [], readable := true, existedBefore := false }

/-- See `tieShotHigh`: the lexically smaller name, enumerated second. -/
def tieShotLow : FileEntry :=
  { name := "x_s1_1.png", mtime := 5, bytes := [], readable := true, existedBefore := false }

/-- Concrete per-script outcomes: `a` exits 0, everything else exits 1. -/
def wOutcome : String → ProcOutcome :=
  fun nm => if nm = "a" then .completed 0 "ok" "" else .completed 1 "" "boom"

/-- Concrete timestamp assignment. -/
def wZero : String → Nat :=
  fun _ => 0

/-- A screenshot of script `demo` left in the shared directory by an earlier
run (present before the current run began). -/
def oldShot : FileEntry :=
  { name := "demo_final_state_120000.png", mtime := 3, bytes := [137, 80], readable := true,
    existedBefore := true }

/-- Helper: splitting a record list by a boolean field counts everything once. -/
theorem countP_bool_split {α : Type} (p : α → Bool) (l : List α) :
    l.countP p + l.countP (fun a => !p a) = l.length := by
  induction l with
  | nil => rfl
  | cons x xs ih => cases h : p x <;> simp [List.countP_cons, h] <;> omega

/-- Helper: membership in a harvest, unfolded to the underlying directory scan. -/
theorem mem_collect_screenshots (fs : List FileEntry) (sid : String) (r : ShotRecord) :
    r ∈ collect_screenshots fs sid ↔
      ∃ f, f ∈ fs ∧ matchesShotGlob sid f.name = true ∧ f.readable = true ∧
        shotRecordOf f = r := by
  unfold collect_screenshots
  rw [List.mem_insertionSort]
  simp only [List.mem_map, List.mem_filter]
  constructor
  · rintro ⟨f, ⟨⟨hf, hm⟩, hr⟩, he⟩
    exact ⟨f, hf, hm, hr, he⟩
  · rintro ⟨f, hf, hm, hr, he⟩
    exact ⟨f, ⟨⟨hf, hm⟩, hr⟩, he⟩

/-- Helper: the exit code chosen by `print_summary` is 0 exactly when every
record is a success. -/
theorem print_summary_exit_eq_zero_iff (results : List RunResult) :
    print_summary_exit results = 0 ↔ ∀ r ∈ results, r.success = true := by
  have hle : results.countP (fun r : RunResult => r.success) ≤ results.length :=
    List.countP_le_length (fun r : RunResult => r.success)
  have hiff : (results.countP (fun r : RunResult => r.success) = results.length) ↔
      ∀ r ∈ results, r.success = true := List.countP_eq_length
  unfold print_summary_exit summary_failed summary_passed
  rw [← hiff]
  by_cases h : results.length - results.countP (fun r => r.success) > 0
  · rw [if_pos h]; omega
  · rw [if_neg h]; omega

/-- Helper: both branches of the executor record the script identity. -/
theorem run_single_script_script (fs : List FileEntry) (nm : String) (oc : ProcOutcome)
    (t1 t2 : Nat) : (run_single_script fs nm oc t1 t2).script = nm := by
  cases oc <;> rfl

set_option maxRecDepth 100000 in
/-- C1: the safety patch is NOT idempotent.  On any script that triggers the
screenshot-injection branch (it mentions `async def`, `playwright` and the
literal `page = await browser.new_page()` line - as the scripts shipped in
the scripts directory do), a second application splices the capture snippet
and the extra capture calls in again, so the bytes after the second
application differ from the bytes after the first.  The code guards the
prepending of imports against re-application but not the snippet splice, corrupting
patched scripts a little more on every run; the spec states idempotence, so
this is a bug in the code. -/
theorem ensure_headless_mode_not_idempotent :
    ensure_headless_mode "demo" (ensure_headless_mode "demo" trigScript) ≠
      ensure_headless_mode "demo" trigScript := by
  decide

/-- C2 counterexample: running the controller twice against the same result
path does not concatenate the artifact lists.  After a first run whose `alpha`
script produced one artifact and a second run whose `beta` script produced one
artifact, the stored document holds only the second run's artifact list - the
first run's `alpha` artifact is gone, so the stored list is a replacement,
not the claimed concatenation. -/
theorem save_results_no_merge_counterexample :
    docShotFilenames docAfterFirstRun = ["alpha_step1_100000.png"] ∧
    docShotFilenames docAfterSecondRun = ["beta_step1_200000.png"] ∧
    docShotFilenames docAfterSecondRun ≠
      ["alpha_step1_100000.png"] ++ ["beta_step1_200000.png"] := by
  decide

/-- C2 amended: persisting never merges.  `save_results` opens the result
path with mode `w` (truncating) and never reads the prior document: the
output is the same whatever document existed before, and it stores exactly
the current run's serialized records (hence exactly the current run's
artifact lists).  No fresh-document flag exists. -/
theorem save_results_overwrites (prior prior' : Option ResultsDoc) (t : Nat)
    (results : List RunResult) :
    save_results prior t results = save_results prior' t results ∧
    (save_results prior t results).results = results.map serializeResult :=
  ⟨rfl, rfl⟩

/-- C3 counterexample: with browsers ready and an existing scripts directory
that contains no `*.py` file, discovery is empty and the controller's process
exit code is 0, not the nonzero code the claim requires for the
no-scripts-found condition (`run_all_scripts` returns early without calling
`sys.exit`). -/
theorem controller_exit_code_no_scripts_counterexample :
    discoverScripts ["README.md"] = [] ∧
    controller_exit_code true true ["README.md"] []
      (fun _ => .completed 0 "" "") (fun _ => 0) (fun _ => 0) = 0 := by
  decide

/-- C3 amended: the exit code is 0 exactly when the browser check failed, the
scripts directory is missing, no script was discovered (all early returns
that fall through to a 0 exit), or every executed script's record is a
success; otherwise it is 1.  In particular, when scripts do run, any failed
or errored script forces exit code 1. -/
theorem controller_exit_code_zero_iff (b d : Bool) (listing : List String)
    (fs : List FileEntry) (oc : String → ProcOutcome) (st en : String → Nat) :
    (controller_exit_code b d listing fs oc st en = 0 ↔
      (b = false ∨ d = false ∨ discoverScripts listing = [] ∨
        ∀ r ∈ runResultsOf fs (discoverScripts listing) oc st en, r.success = true)) ∧
    (controller_exit_code b d listing fs oc st en = 0 ∨
      controller_exit_code b d listing fs oc st en = 1) := by
  constructor
  · unfold controller_exit_code
    cases b with
    | false => simp
    | true =>
      cases d with
      | false => simp
      | true =>
        by_cases hE : (discoverScripts listing).isEmpty
        · simp [hE, List.isEmpty_iff.mp hE]
        · have hne : discoverScripts listing ≠ [] := by
            simpa [List.isEmpty_iff] using hE
          simp only [hE, Bool.not_true, Bool.false_eq_true, if_false]
          rw [print_summary_exit_eq_zero_iff]
          simp [hne]
  · unfold controller_exit_code
    cases b with
    | false => simp
    | true =>
      cases d with
      | false => simp
      | true =>
        by_cases hE : (discoverScripts listing).isEmpty
        · simp [hE]
        · simp only [hE, Bool.not_true, Bool.false_eq_true, if_false]
          unfold print_summary_exit
          by_cases h : summary_failed (runResultsOf fs (discoverScripts listing) oc st en) > 0
          · rw [if_pos h]; right; rfl
          · rw [if_neg h]; left; rfl

/-- C4 counterexample: discovery applies no exclusion filter.  In a scripts
directory that contains the runner's own entry file `runner.py` next to an
eligible test script, discovery returns both - the claim requires the entry
file to be excluded. -/
theorem discoverScripts_includes_entry_file :
    ("runner.py" : String) ∈ discoverScripts ["form_submission_test.py", "runner.py"] ∧
    discoverScripts ["form_submission_test.py", "runner.py"] =
      ["form_submission_test.py", "runner.py"] := by
  decide

/-- C4 amended: discovery returns exactly the directory entries whose name
ends in `.py`, in enumeration order, with no reserved-prefix or entry-file
exclusion: a file is discovered if and only if it is in the directory and has
the `.py` extension. -/
theorem discoverScripts_no_filter (files : List String) (f : String) :
    f ∈ discoverScripts files ↔ f ∈ files ∧ strEnds f ".py" = true := by
  simp [discoverScripts, List.mem_filter]

/-- C5 counterexample: artifact attribution is not exclusive.  The file
`a_b_final_1.png` carries the script identity `a_b`, yet it is harvested into
the record of the distinct identity `a` as well, because the glob
`a_*.png` also matches it. -/
theorem collect_screenshots_cross_attribution_counterexample :
    ("a" : String) ≠ "a_b" ∧
    ("a_b_final_1.png" : String) = "a_b" ++ "_" ++ "final_1" ++ ".png" ∧
    (collect_screenshots [nestedShotFile] "a").map (fun r => r.filename) =
      ["a_b_final_1.png"] ∧
    (collect_screenshots [nestedShotFile] "a_b").map (fun r => r.filename) =
      ["a_b_final_1.png"] := by
  decide

/-- C5 amended: a record harvested for identity `S` always has a file name
beginning with `S` plus the underscore separator, so a single file can be
attributed to two distinct identities only when the two identities (each
extended by the separator) are nested - one a prefix of the other.  For
identities that are prefix-free, attribution is exclusive as claimed. -/
theorem collect_screenshots_attribution (fs : List FileEntry) (S T : String)
    (r : ShotRecord) (hS : r ∈ collect_screenshots fs S)
    (hT : r ∈ collect_screenshots fs T) :
    (S ++ "_").data <+: r.filename.data ∧ (T ++ "_").data <+: r.filename.data ∧
      ((S ++ "_").data <+: (T ++ "_").data ∨ (T ++ "_").data <+: (S ++ "_").data) := by
  obtain ⟨f, hf, hm, hr, he⟩ := (mem_collect_screenshots fs S r).mp hS
  obtain ⟨g, hg, hmg, hrg, heg⟩ := (mem_collect_screenshots fs T r).mp hT
  have hfn : r.filename = f.name := by rw [← he]; rfl
  have hgn : r.filename = g.name := by rw [← heg]; rfl
  have hPS : (S ++ "_").data <+: r.filename.data := by
    rw [hfn]
    have := (Bool.and_eq_true _ _).mp ((Bool.and_eq_true _ _).mp hm).1
    exact List.isPrefixOf_iff_prefix.mp this.1
  have hPT : (T ++ "_").data <+: r.filename.data := by
    rw [hgn]
    have := (Bool.and_eq_true _ _).mp ((Bool.and_eq_true _ _).mp hmg).1
    exact List.isPrefixOf_iff_prefix.mp this.1
  exact ⟨hPS, hPT, List.prefix_or_prefix_of_prefix hPS hPT⟩

/-- C5 witness: the nested identities `a` and `a_b` both receive the record
of the file `a_b_final_1.png`, and the two extended identities are indeed
prefix-comparable. -/
theorem collect_screenshots_attribution_witness :
    ("a" ++ "_").data <+: (shotRecordOf nestedShotFile).filename.data ∧
    ("a_b" ++ "_").data <+: (shotRecordOf nestedShotFile).filename.data ∧
      (("a" ++ "_").data <+: ("a_b" ++ "_").data ∨
        ("a_b" ++ "_").data <+: ("a" ++ "_").data) :=
  collect_screenshots_attribution [nestedShotFile] "a" "a_b" (shotRecordOf nestedShotFile)
    (by decide) (by decide)

/-- C6 counterexample: when two artifacts of the same script share a
modification time, the harvest keeps the directory-enumeration order, not the
claimed lexical order of file names (and the record carries no sequence
number at all): the scan order `x_s2.., x_s1..` survives into the result. -/
theorem collect_screenshots_tie_not_lexical :
    ((collect_screenshots [tieShotHigh, tieShotLow] "x").map (fun r => r.filename) =
      ["x_s2_1.png", "x_s1_1.png"]) ∧
    ((collect_screenshots [tieShotHigh, tieShotLow] "x").map (fun r => r.filename) ≠
      ["x_s1_1.png", "x_s2_1.png"]) := by
  decide

/-- C6 amended: the harvested list is the stable sort by modification time
(ascending) of one record per readable matching file: it is sorted by
timestamp, and it is a permutation of the scanned records; ties keep the scan
order, and no sequence-number field is assigned (ordering is positional
only). -/
theorem collect_screenshots_sorted (fs : List FileEntry) (sid : String) :
    List.Sorted (fun a b => a.timestamp ≤ b.timestamp) (collect_screenshots fs sid) ∧
    (collect_screenshots fs sid).Perm
      (((fs.filter (fun f => matchesShotGlob sid f.name)).filter
        (fun f => f.readable)).map shotRecordOf) :=
  ⟨List.sorted_insertionSort _ _, List.perm_insertionSort _ _⟩

/-- C7: in every persisted and printed summary, passed plus failed equals the
total script count, and after a run each discovered script (script stems are
distinct when the `.py` files are) owns exactly one execution record. -/
theorem run_summary_counts (prior : Option ResultsDoc) (t : Nat) (fs : List FileEntry)
    (scriptFiles : List String) (oc : String → ProcOutcome) (st en : String → Nat)
    (hnd : (scriptFiles.map (stemDrop 3)).Nodup) :
    (save_results prior t (runResultsOf fs scriptFiles oc st en)).passed +
      (save_results prior t (runResultsOf fs scriptFiles oc st en)).failed =
      (save_results prior t (runResultsOf fs scriptFiles oc st en)).total_scripts ∧
    summary_passed (runResultsOf fs scriptFiles oc st en) +
      summary_failed (runResultsOf fs scriptFiles oc st en) =
      (runResultsOf fs scriptFiles oc st en).length ∧
    (save_results prior t (runResultsOf fs scriptFiles oc st en)).total_scripts =
      scriptFiles.length ∧
    ∀ s ∈ scriptFiles.map (stemDrop 3),
      (runResultsOf fs scriptFiles oc st en).countP (fun r => r.script == s) = 1 := by
  refine ⟨countP_bool_split _ _, ?_, by simp [save_results, runResultsOf], ?_⟩
  · have hle : (runResultsOf fs scriptFiles oc st en).countP
        (fun r : RunResult => r.success) ≤
        (runResultsOf fs scriptFiles oc st en).length :=
      List.countP_le_length (fun r : RunResult => r.success)
    unfold summary_failed summary_passed
    omega
  · intro s hs
    have hmap : (runResultsOf fs scriptFiles oc st en).countP (fun r => r.script == s) =
        (scriptFiles.map (stemDrop 3)).countP (fun nm => nm == s) := by
      unfold runResultsOf
      rw [List.countP_map, List.countP_map]
      apply List.countP_congr
      intro f _
      simp [run_single_script_script]
    rw [hmap]
    have hcnt : (scriptFiles.map (stemDrop 3)).countP (fun nm => nm == s) =
        (scriptFiles.map (stemDrop 3)).count s :=
      (List.count_eq_countP s (scriptFiles.map (stemDrop 3))).symm
    rw [hcnt]
    exact List.count_eq_one_of_mem hnd hs

/-- C7 witness: a concrete two-script run (`a.py` succeeds, `b.py` fails). -/
theorem run_summary_counts_witness :
    (save_results none 0 (runResultsOf [] ["a.py", "b.py"] wOutcome wZero wZero)).passed +
      (save_results none 0 (runResultsOf [] ["a.py", "b.py"] wOutcome wZero wZero)).failed =
      (save_results none 0 (runResultsOf [] ["a.py", "b.py"] wOutcome wZero wZero)).total_scripts ∧
    summary_passed (runResultsOf [] ["a.py", "b.py"] wOutcome wZero wZero) +
      summary_failed (runResultsOf [] ["a.py", "b.py"] wOutcome wZero wZero) =
      (runResultsOf [] ["a.py", "b.py"] wOutcome wZero wZero).length ∧
    (save_results none 0 (runResultsOf [] ["a.py", "b.py"] wOutcome wZero wZero)).total_scripts =
      (["a.py", "b.py"] : List String).length ∧
    ∀ s ∈ (["a.py", "b.py"] : List String).map (stemDrop 3),
      (runResultsOf [] ["a.py", "b.py"] wOutcome wZero wZero).countP
        (fun r => r.script == s) = 1 :=
  run_summary_counts none 0 [] ["a.py", "b.py"] wOutcome wZero wZero (by decide)

/-- C8: outcome classification.  A completed process is a success exactly for
exit code 0, its status is FAILED exactly for a nonzero code and PASSED
exactly for 0; an exception while spawning or communicating yields the
distinct ERROR status (never FAILED or PASSED), is not a success, and always
carries the textual cause under the `error` key. -/
theorem run_single_script_classification (fs : List FileEntry) (nm : String) (rc : Int)
    (out err msg : String) (t1 t2 : Nat) :
    ((run_single_script fs nm (.completed rc out err) t1 t2).success = true ↔ rc = 0) ∧
    ((run_single_script fs nm (.completed rc out err) t1 t2).status = "❌ FAILED" ↔
      rc ≠ 0) ∧
    ((run_single_script fs nm (.completed rc out err) t1 t2).status = "✅ PASSED" ↔
      rc = 0) ∧
    (run_single_script fs nm (.exception msg) t1 t2).status = "❌ ERROR" ∧
    (run_single_script fs nm (.exception msg) t1 t2).success = false ∧
    (run_single_script fs nm (.exception msg) t1 t2).error = some msg ∧
    (run_single_script fs nm (.exception msg) t1 t2).status ≠ "❌ FAILED" ∧
    (run_single_script fs nm (.exception msg) t1 t2).status ≠ "✅ PASSED" := by
  refine ⟨?_, ?_, ?_, rfl, rfl, rfl, ?_, ?_⟩
  · by_cases h : rc = 0 <;> simp [run_single_script, h]
  · by_cases h : rc = 0 <;> simp [run_single_script, h]
  · by_cases h : rc = 0 <;> simp [run_single_script, h]
  · show ("❌ ERROR" : String) ≠ "❌ FAILED"
    decide
  · show ("❌ ERROR" : String) ≠ "✅ PASSED"
    decide

/-- C9: the exception path appends a record with success `false`, return code
`-1`, empty stdout, the exception text as stderr, and an empty screenshots
list.  The record does not depend on the screenshots directory at all (first
conjunct), so matching artifact files present on disk are not harvested into
an error record. -/
theorem run_single_script_error_record (fs fs' : List FileEntry) (nm msg : String)
    (t1 t2 : Nat) :
    run_single_script fs nm (.exception msg) t1 t2 =
      run_single_script fs' nm (.exception msg) t1 t2 ∧
    (run_single_script fs nm (.exception msg) t1 t2).success = false ∧
    (run_single_script fs nm (.exception msg) t1 t2).return_code = -1 ∧
    (run_single_script fs nm (.exception msg) t1 t2).stdout = "" ∧
    (run_single_script fs nm (.exception msg) t1 t2).stderr = msg ∧
    (run_single_script fs nm (.exception msg) t1 t2).screenshots = [] :=
  ⟨rfl, rfl, rfl, rfl, rfl, rfl⟩

/-- C10: the harvest is complete over the current directory contents.  The
directory is initialized with `mkdir(exist_ok=True)` - existing contents
survive untouched - and every readable file matching the identity's glob,
including any file already present before the run began, yields a record in
the harvest carrying its name and modification time. -/
theorem collect_screenshots_complete (existing : List FileEntry) (sid : String)
    (f : FileEntry) (hf : f ∈ existing) (hm : matchesShotGlob sid f.name = true)
    (hr : f.readable = true) :
    ∃ r, r ∈ collect_screenshots (initScreenshotsDir (some existing)) sid ∧
      r.filename = f.name ∧ r.timestamp = f.mtime := by
  refine ⟨shotRecordOf f, ?_, rfl, rfl⟩
  exact (mem_collect_screenshots _ _ _).mpr ⟨f, hf, hm, hr, rfl⟩

/-- C10 witness: a pre-existing screenshot of `demo` (left by an earlier run)
is harvested into the new run's record list. -/
theorem collect_screenshots_complete_witness :
    ∃ r, r ∈ collect_screenshots (initScreenshotsDir (some [oldShot])) "demo" ∧
      r.filename = oldShot.name ∧ r.timestamp = oldShot.mtime :=
  collect_screenshots_complete [oldShot] "demo" oldShot (by decide) (by decide) (by decide)

end Runner
